import Mathlib

/-!
Verification of the visitor face-enrollment workflow implemented in
`src/components/FaceRegistration.tsx`.

The component is a three-screen UI state machine (consent → scanning →
completed) holding React state `currentStep`, `isScanning`, `stream`,
`hasPermission`, `consentChecked`, `scannedFaceId`.  We embed that state as
a Lean structure and each handler as a pure function from state (plus the
externally-determined outcome of its asynchronous calls) to a new state
together with the list of observable effects it emits (toasts, the HTTP
request, the scheduled auto-check-in timer, camera requests, track stops).
A `mounted` ghost flag models the component-instance lifecycle, and
`cameraPending` marks an outstanding `getUserMedia` request, so that the
reachable-state relation can express the session lifecycle.
-/

/-- The `currentStep` React state: "consent" | "scanning" | "completed". -/
inductive Step where
  | consent
  | scanning
  | completed
deriving DecidableEq, Repr, BEq

/-- The optional `visitorInfo` prop: name, company, visiting, visitorType. -/
structure VisitorInfo where
  name : String
  company : String
  visiting : String
  visitorType : String
deriving DecidableEq, Repr

/-- JSON body of the scan request: `{ image, visitorInfo }`. -/
structure ScanBody where
  image : String
  visitorInfo : VisitorInfo
deriving DecidableEq, Repr

/-- Observable side effects the handlers emit. -/
inductive Effect where
  | toastSuccess (msg : String)
  | toastError (msg : String)
  | scheduleAutoCheckIn (delayMs : Nat)
  | requestCamera
  | stopTracks (handle : Nat)
  | httpRequest (method : String) (url : String) (body : ScanBody)
deriving DecidableEq, Repr

/-- The component's React state, with two lifecycle ghost fields:
`cameraPending` (a `getUserMedia` call is outstanding) and `mounted`
(the component instance has not been torn down). -/
structure SessionState where
  currentStep : Step
  isScanning : Bool
  stream : Option Nat
  hasPermission : Option Bool
  consentChecked : Bool
  scannedFaceId : String
  cameraPending : Bool
  mounted : Bool
deriving DecidableEq, Repr

/-- Initial state of a freshly opened enrollment flow (the `useState`
initialisers). -/
def initState : SessionState :=
  { currentStep := Step.consent
  , isScanning := false
  , stream := none
  , hasPermission := none
  , consentChecked := false
  , scannedFaceId := ""
  , cameraPending := false
  , mounted := true }

/-- The URL passed to `fetch` in `captureAndScanFace`. -/
def scanFaceUrl : String := "http://localhost:5000/api/scan-face"

/-- `canvas.toDataURL(mime)`: a data-URI-encoded still image. -/
def toDataURL (mime : String) (data : String) : String :=
  "data:" ++ mime ++ ";base64," ++ data

/-- The payload built in `captureAndScanFace`:
`{ image, visitorInfo: visitorInfo || { name: visitorName, company: '',
visiting: '', visitorType: 'regular' } }`. -/
def buildScanBody (visitorInfo : Option VisitorInfo) (visitorName : String)
    (image : String) : ScanBody :=
  { image := image
  , visitorInfo := visitorInfo.getD
      { name := visitorName, company := "", visiting := "", visitorType := "regular" } }

/-- `startCamera` up to its suspension point: issues the `getUserMedia`
request; the grant or denial is delivered later by `resolveCamera`. -/
def startCamera (s : SessionState) : SessionState × List Effect :=
  ({ s with cameraPending := true }, [Effect.requestCamera])

/-- Resumption of `startCamera` when the platform answers: on a granted
stream, `setStream` and `setHasPermission(true)`; on denial (the `catch`
block), `setHasPermission(false)` and an error toast. -/
def resolveCamera (s : SessionState) (result : Option Nat) :
    SessionState × List Effect :=
  match result with
  | some h =>
      ({ s with stream := some h, hasPermission := some true, cameraPending := false }, [])
  | none =>
      ({ s with hasPermission := some false, cameraPending := false },
       [Effect.toastError "Kunde inte komma åt kameran. Kontrollera behörigheter."])

/-- `handleConsentAccepted`: `if (!consentChecked) return;` then
`setCurrentStep("scanning"); startCamera();`. -/
def handleConsentAccepted (s : SessionState) : SessionState × List Effect :=
  if s.consentChecked = false then (s, [])
  else startCamera { s with currentStep := Step.scanning }

/-- `stopCamera`: `if (stream) { stream.getTracks().forEach(t => t.stop()); setStream(null); }`. -/
def stopCamera (s : SessionState) : SessionState × List Effect :=
  match s.stream with
  | some h => ({ s with stream := none }, [Effect.stopTracks h])
  | none => (s, [])

/-- `stopCamera` as the closure a given render creates: its `stream`
binding is the value `captured` seen by that render, while `setStream`
writes to the current state.  A fresh render's closure has
`captured = s.stream` and coincides with `stopCamera`. -/
def stopCameraClosure (captured : Option Nat) (s : SessionState) :
    SessionState × List Effect :=
  match captured with
  | some h => ({ s with stream := none }, [Effect.stopTracks h])
  | none => (s, [])

/-- The `useEffect` cleanup run on component teardown.  The effect has an
empty dependency list, so the cleanup registered at mount is the mount
render's `stopCamera` closure, whose captured `stream` binding is the
initial null (`initState.stream`): its `if (stream)` guard always fails,
and a stream acquired after mount is never stopped.  The instance is then
disposed. -/
def unmountCleanup (s : SessionState) : SessionState × List Effect :=
  let r := stopCameraClosure initState.stream s
  ({ r.1 with mounted := false }, r.2)

/-- Outcome of the try-block of `captureAndScanFace`, determined by the
environment: the frame capture may throw (null video element, null 2d
context), the `fetch`/`response.json()` may throw a transport error, or
the service responds with a JSON `{ status, face_id }`. -/
inductive Outcome where
  | captureThrows
  | fetchThrows
  | respond (status : String) (face_id : String)
deriving DecidableEq, Repr

/-- The first statement of `captureAndScanFace`: `setIsScanning(true)`. -/
def captureEntry (s : SessionState) : SessionState := { s with isScanning := true }

/-- `captureAndScanFace`: `setIsScanning(true)`, then the try-block
(capture the frame, POST it with the visitor info, branch on
`data.status === 'success'`), the catch-block turning any thrown error
into an error toast, and the finally-block `setIsScanning(false)`. -/
def captureAndScanFace (s : SessionState) (visitorInfo : Option VisitorInfo)
    (visitorName : String) (frame : String) (o : Outcome) :
    SessionState × List Effect :=
  let s1 := captureEntry s
  let post := Effect.httpRequest "POST" scanFaceUrl
      (buildScanBody visitorInfo visitorName (toDataURL "image/jpeg" frame))
  let r :=
    match o with
    | Outcome.captureThrows =>
        (s1, [Effect.toastError "Kunde inte skanna ansikte. Försök igen."])
    | Outcome.fetchThrows =>
        (s1, [post, Effect.toastError "Kunde inte skanna ansikte. Försök igen."])
    | Outcome.respond status fid =>
        if status = "success" then
          ({ s1 with scannedFaceId := fid },
           [post, Effect.toastSuccess "Ansikte och personuppgifter sparade!",
            Effect.scheduleAutoCheckIn 1000])
        else
          (s1, [post, Effect.toastError "Kunde inte spara ansikte och uppgifter."])
  ({ r.1 with isScanning := false }, r.2)

/-- The continue button of the consent screen: `disabled={!consentChecked}`. -/
def consentContinueDisabled (s : SessionState) : Bool := !s.consentChecked

/-- The capture button of the scanning screen: `disabled={isScanning || !stream}`. -/
def captureButtonDisabled (s : SessionState) : Bool := s.isScanning || s.stream.isNone

/-- A click on the capture button: the UI layer drops the click while the
button is disabled, otherwise it runs `captureAndScanFace`. -/
def clickCapture (s : SessionState) (visitorInfo : Option VisitorInfo)
    (visitorName : String) (frame : String) (o : Outcome) :
    SessionState × List Effect :=
  if captureButtonDisabled s then (s, []) else
    captureAndScanFace s visitorInfo visitorName frame o

/-- The permission-denied screen is rendered when
`hasPermission === false && currentStep === "scanning"`. -/
def showsRetryUI (s : SessionState) : Bool :=
  s.hasPermission == some false && s.currentStep == Step.scanning

/-- The retry button of the permission-denied screen: `onClick={startCamera}`. -/
def clickRetry (s : SessionState) : SessionState × List Effect := startCamera s

/-- Reachable session states: every event the UI can deliver to a live
component instance, plus teardown.  Consent-screen interactions require
`currentStep = consent`, the camera resolution requires an outstanding
request on a mounted instance, the retry click requires the
permission-denied screen, and the capture click requires the scanning
screen. -/
inductive Reachable : SessionState → Prop where
  | init : Reachable initState
  | setConsent (s : SessionState) (b : Bool) :
      Reachable s → s.mounted = true → s.currentStep = Step.consent →
      Reachable { s with consentChecked := b }
  | acceptConsent (s : SessionState) :
      Reachable s → s.mounted = true → s.currentStep = Step.consent →
      Reachable (handleConsentAccepted s).1
  | cameraResolved (s : SessionState) (r : Option Nat) :
      Reachable s → s.mounted = true → s.cameraPending = true →
      Reachable (resolveCamera s r).1
  | retryCamera (s : SessionState) :
      Reachable s → s.mounted = true → s.currentStep = Step.scanning →
      s.hasPermission = some false →
      Reachable (startCamera s).1
  | captureClicked (s : SessionState) (visitorInfo : Option VisitorInfo)
      (visitorName : String) (frame : String) (o : Outcome) :
      Reachable s → s.mounted = true → s.currentStep = Step.scanning →
      Reachable (clickCapture s visitorInfo visitorName frame o).1
  | close (s : SessionState) :
      Reachable s → Reachable (unmountCleanup s).1

/-- Concrete states used to instantiate the theorems below. -/
def scanningState : SessionState :=
  { currentStep := Step.scanning
  , isScanning := false
  , stream := some 5
  , hasPermission := some true
  , consentChecked := true
  , scannedFaceId := ""
  , cameraPending := false
  , mounted := true }

/-- A scanning-step state with an outstanding camera request and no stream. -/
def pendingState : SessionState :=
  { initState with currentStep := Step.scanning, consentChecked := true, cameraPending := true }

theorem captureAndScanFace_preserves (s : SessionState) (vi : Option VisitorInfo)
    (vn frame : String) (o : Outcome) :
    (captureAndScanFace s vi vn frame o).1.currentStep = s.currentStep ∧
    (captureAndScanFace s vi vn frame o).1.stream = s.stream ∧
    (captureAndScanFace s vi vn frame o).1.hasPermission = s.hasPermission ∧
    (captureAndScanFace s vi vn frame o).1.consentChecked = s.consentChecked ∧
    (captureAndScanFace s vi vn frame o).1.cameraPending = s.cameraPending ∧
    (captureAndScanFace s vi vn frame o).1.mounted = s.mounted := by
  cases o with
  | captureThrows => simp [captureAndScanFace, captureEntry]
  | fetchThrows => simp [captureAndScanFace, captureEntry]
  | respond st fid =>
      by_cases h : st = "success" <;>
        simp [captureAndScanFace, captureEntry, h]

theorem clickCapture_preserves (s : SessionState) (vi : Option VisitorInfo)
    (vn frame : String) (o : Outcome) :
    (clickCapture s vi vn frame o).1.currentStep = s.currentStep ∧
    (clickCapture s vi vn frame o).1.stream = s.stream ∧
    (clickCapture s vi vn frame o).1.hasPermission = s.hasPermission ∧
    (clickCapture s vi vn frame o).1.consentChecked = s.consentChecked ∧
    (clickCapture s vi vn frame o).1.cameraPending = s.cameraPending ∧
    (clickCapture s vi vn frame o).1.mounted = s.mounted := by
  unfold clickCapture
  split
  · exact ⟨rfl, rfl, rfl, rfl, rfl, rfl⟩
  · exact captureAndScanFace_preserves s vi vn frame o

theorem stopCamera_preserves (s : SessionState) :
    (stopCamera s).1.currentStep = s.currentStep ∧
    (stopCamera s).1.isScanning = s.isScanning ∧
    (stopCamera s).1.hasPermission = s.hasPermission ∧
    (stopCamera s).1.consentChecked = s.consentChecked ∧
    (stopCamera s).1.scannedFaceId = s.scannedFaceId ∧
    (stopCamera s).1.cameraPending = s.cameraPending ∧
    (stopCamera s).1.mounted = s.mounted := by
  cases hs : s.stream <;> simp [stopCamera, hs]

theorem stopCamera_stream (s : SessionState) : (stopCamera s).1.stream = none := by
  cases hs : s.stream <;> simp [stopCamera, hs]

/-- A fresh render's `stopCamera` closure captures the current stream, so
`stopCamera` is `stopCameraClosure` at the state's own stream. -/
theorem stopCamera_eq_closure (s : SessionState) :
    stopCamera s = stopCameraClosure s.stream s := by
  cases hs : s.stream <;> simp [stopCamera, stopCameraClosure, hs]

/-- The inductive invariant carried through the reachability proof. -/
def SessionInv (s : SessionState) : Prop :=
  (s.stream ≠ none → s.currentStep = Step.scanning ∧ s.hasPermission = some true) ∧
  (s.cameraPending = true → s.currentStep = Step.scanning ∧ s.stream = none)

theorem reachable_inv (s : SessionState) (h : Reachable s) : SessionInv s := by
  induction h with
  | init => simp [SessionInv, initState]
  | setConsent s b hr hm hc ih =>
      simp only [SessionInv] at ih ⊢
      exact ih
  | acceptConsent s hr hm hc ih =>
      by_cases hcc : s.consentChecked = false
      · simpa [handleConsentAccepted, hcc] using ih
      · have hstream : s.stream = none := by
          by_contra hne
          have hstep := (ih.1 hne).1
          rw [hc] at hstep
          simp at hstep
        simp [SessionInv, handleConsentAccepted, hcc, startCamera, hstream, hm]
  | cameraResolved s r hr hm hp ih =>
      have h2 := ih.2 hp
      cases r with
      | some h => simp [SessionInv, resolveCamera, h2.1, hm]
      | none => simp [SessionInv, resolveCamera, h2.1, h2.2, hm]
  | retryCamera s hr hm hstep hperm ih =>
      have hstream : s.stream = none := by
        by_contra hne
        have hp := (ih.1 hne).2
        rw [hperm] at hp
        simp at hp
      simp [SessionInv, startCamera, hstep, hstream, hm]
  | captureClicked s vi vn frame o hr hm hstep ih =>
      obtain ⟨e1, e2, e3, _, e5, _⟩ := clickCapture_preserves s vi vn frame o
      simp only [SessionInv] at ih ⊢
      rw [e1, e2, e3, e5]
      exact ih
  | close s hr ih =>
      simp only [SessionInv, unmountCleanup, stopCameraClosure, initState] at ih ⊢
      exact ih

/-- Claim C1: on a submission response with status "success", the code
stores the returned face_id in `scannedFaceId` and schedules the
`onAutoCheckIn` callback exactly once with a 1000 ms delay, but the step
does NOT transition from Scanning to Completed: `captureAndScanFace`
never calls `setCurrentStep("completed")` (no statement in the component
does, so the completed screen is unreachable), and the state stays in
`scanning` on the concrete success response `{status: "success",
face_id: "abc123"}`. -/
theorem c1_success_stores_id_schedules_once_but_step_stays_scanning :
    (captureAndScanFace scanningState none "Test" "frame0"
        (Outcome.respond "success" "abc123")).1.scannedFaceId = "abc123" ∧
    (captureAndScanFace scanningState none "Test" "frame0"
        (Outcome.respond "success" "abc123")).2.count (Effect.scheduleAutoCheckIn 1000) = 1 ∧
    (captureAndScanFace scanningState none "Test" "frame0"
        (Outcome.respond "success" "abc123")).1.currentStep = Step.scanning ∧
    ¬ (captureAndScanFace scanningState none "Test" "frame0"
        (Outcome.respond "success" "abc123")).1.currentStep = Step.completed := by
  refine ⟨rfl, ?_, rfl, by decide⟩
  rfl

/-- Claim C2: at the Consent step, the consent action transitions to
Scanning and issues the camera request exactly when the consent checkbox
is checked; with it unchecked the action is a no-op with no effects, and
the continue button is disabled exactly when the checkbox is unchecked. -/
theorem c2_consent_gates_transition (s : SessionState)
    (hstep : s.currentStep = Step.consent) :
    (s.consentChecked = true →
      (handleConsentAccepted s).1.currentStep = Step.scanning ∧
      (handleConsentAccepted s).2 = [Effect.requestCamera]) ∧
    (s.consentChecked = false → handleConsentAccepted s = (s, [])) ∧
    ((handleConsentAccepted s).1.currentStep = Step.scanning ↔ s.consentChecked = true) ∧
    (consentContinueDisabled s = true ↔ s.consentChecked = false) := by
  by_cases h : s.consentChecked = false
  · simp [handleConsentAccepted, h, consentContinueDisabled, hstep]
  · have h' : s.consentChecked = true := by
      cases hv : s.consentChecked
      · exact absurd hv h
      · rfl
    simp [handleConsentAccepted, startCamera, h', consentContinueDisabled]

theorem c2_witness :
    (initState.consentChecked = false → handleConsentAccepted initState = (initState, [])) ∧
    (consentContinueDisabled initState = true ↔ initState.consentChecked = false) :=
  ⟨(c2_consent_gates_transition initState rfl).2.1,
   (c2_consent_gates_transition initState rfl).2.2.2⟩

/-- Claim C3: whenever the try-block throws (frame capture or transport)
or the service answers with a status other than "success", the step is
unchanged (remains Scanning), `scannedFaceId` is unchanged, `isScanning`
ends at false, and an error toast is emitted instead of the error
propagating (the handler is total and returns normally). -/
theorem c3_failure_keeps_scanning_state (s : SessionState) (vi : Option VisitorInfo)
    (vn frame : String) (o : Outcome)
    (hfail : o = Outcome.captureThrows ∨ o = Outcome.fetchThrows ∨
      ∃ st fid, o = Outcome.respond st fid ∧ st ≠ "success") :
    (captureAndScanFace s vi vn frame o).1.currentStep = s.currentStep ∧
    (captureAndScanFace s vi vn frame o).1.scannedFaceId = s.scannedFaceId ∧
    (captureAndScanFace s vi vn frame o).1.isScanning = false ∧
    ∃ msg, Effect.toastError msg ∈ (captureAndScanFace s vi vn frame o).2 := by
  rcases hfail with h | h | ⟨st, fid, h, hne⟩
  · subst h
    refine ⟨rfl, rfl, rfl, "Kunde inte skanna ansikte. Försök igen.", ?_⟩
    simp [captureAndScanFace]
  · subst h
    refine ⟨rfl, rfl, rfl, "Kunde inte skanna ansikte. Försök igen.", ?_⟩
    simp [captureAndScanFace]
  · subst h
    refine ⟨?_, ?_, rfl, "Kunde inte spara ansikte och uppgifter.", ?_⟩ <;>
      simp [captureAndScanFace, captureEntry, hne]

theorem c3_witness :
    (captureAndScanFace scanningState none "Test" "frame0"
        (Outcome.respond "error" "x")).1.currentStep = scanningState.currentStep ∧
    (captureAndScanFace scanningState none "Test" "frame0"
        (Outcome.respond "error" "x")).1.scannedFaceId = scanningState.scannedFaceId ∧
    (captureAndScanFace scanningState none "Test" "frame0"
        (Outcome.respond "error" "x")).1.isScanning = false ∧
    ∃ msg, Effect.toastError msg ∈ (captureAndScanFace scanningState none "Test" "frame0"
        (Outcome.respond "error" "x")).2 :=
  c3_failure_keeps_scanning_state scanningState none "Test" "frame0"
    (Outcome.respond "error" "x")
    (Or.inr (Or.inr ⟨"error", "x", rfl, by decide⟩))

/-- Claim C4: `captureAndScanFace` sets `isScanning` to true as its first
statement (`captureEntry`) and its finally-block resets it to false on
every exit path: success, service rejection, capture exception, and
transport exception. -/
theorem c4_isScanning_true_at_entry_false_at_exit (s : SessionState)
    (vi : Option VisitorInfo) (vn frame : String) (o : Outcome) :
    (captureEntry s).isScanning = true ∧
    (captureAndScanFace s vi vn frame o).1.isScanning = false :=
  ⟨rfl, rfl⟩

/-- Claim C5: the capture button is disabled exactly when a submission is
in flight or no stream is present, and a click in that situation is
rejected at the UI layer: it leaves the state unchanged and emits no
effects (nothing is queued). -/
theorem c5_capture_rejected_unless_stream_and_idle (s : SessionState)
    (vi : Option VisitorInfo) (vn frame : String) (o : Outcome) :
    (captureButtonDisabled s = true ↔ (s.isScanning = true ∨ s.stream = none)) ∧
    ((s.isScanning = true ∨ s.stream = none) →
      clickCapture s vi vn frame o = (s, [])) := by
  constructor
  · simp [captureButtonDisabled, Option.isNone_iff_eq_none]
  · intro h
    have hd : captureButtonDisabled s = true := by
      simp [captureButtonDisabled, Option.isNone_iff_eq_none]
      exact h
    simp [clickCapture, hd]

theorem c5_witness :
    clickCapture initState none "Test" "frame0" Outcome.captureThrows = (initState, []) :=
  (c5_capture_rejected_unless_stream_and_idle initState none "Test" "frame0"
    Outcome.captureThrows).2 (Or.inr rfl)

/-- Intermediate reachable states used to instantiate the theorems. -/
def consentedState : SessionState := { initState with consentChecked := true }

/-- The state after the consent button was clicked with the box checked. -/
def acceptedState : SessionState := (handleConsentAccepted consentedState).1

/-- The state after the platform granted the camera as stream handle 7. -/
def grantedState : SessionState := (resolveCamera acceptedState (some 7)).1

/-- Claim C6: the `stopCamera` function itself is idempotent — it
discards the stream handle (leaving none), stops the tracks of a present
stream (concretely, handle 5 of `scanningState`), and a repeat
invocation changes nothing and emits no effect.  But the teardown
cleanup, although it invokes `stopCamera` in every step, invokes the
mount render's closure whose captured stream is null: at the reachable
state holding stream handle 7, teardown stops no tracks and leaves the
handle in place, so release-on-teardown fails. -/
theorem c6_stopCamera_idempotent_but_teardown_stale (s : SessionState) :
    (stopCamera s).1.stream = none ∧
    stopCamera (stopCamera s).1 = ((stopCamera s).1, []) ∧
    (stopCamera scanningState).2 = [Effect.stopTracks 5] ∧
    (unmountCleanup grantedState).1.stream = some 7 ∧
    (unmountCleanup grantedState).2 = [] := by
  refine ⟨?_, ?_, by decide, by decide, by decide⟩ <;>
    cases hs : s.stream <;> simp [stopCamera, hs]

/-- Claim C7: when the platform denies the camera, the handler sets
`hasPermission` to false and emits an error toast; the step stays
`scanning`, which makes the permission-denied screen with its retry
button render, the retry button re-issues the camera request, and with no
stream present the capture button stays disabled. -/
theorem c7_camera_denied_retry (s : SessionState)
    (hstep : s.currentStep = Step.scanning) (hstream : s.stream = none) :
    (resolveCamera s none).1.hasPermission = some false ∧
    Effect.toastError "Kunde inte komma åt kameran. Kontrollera behörigheter." ∈
      (resolveCamera s none).2 ∧
    (resolveCamera s none).1.currentStep = Step.scanning ∧
    showsRetryUI (resolveCamera s none).1 = true ∧
    captureButtonDisabled (resolveCamera s none).1 = true ∧
    (clickRetry (resolveCamera s none).1).2 = [Effect.requestCamera] := by
  have h1 : (resolveCamera s none).1.currentStep = Step.scanning := hstep
  refine ⟨rfl, by simp [resolveCamera], h1, ?_, ?_, rfl⟩
  · simp only [showsRetryUI, h1]
    rfl
  · simp [captureButtonDisabled, resolveCamera, hstream]

theorem c7_witness :
    (resolveCamera pendingState none).1.hasPermission = some false ∧
    showsRetryUI (resolveCamera pendingState none).1 = true ∧
    captureButtonDisabled (resolveCamera pendingState none).1 = true :=
  ⟨(c7_camera_denied_retry pendingState rfl rfl).1,
   (c7_camera_denied_retry pendingState rfl rfl).2.2.2.1,
   (c7_camera_denied_retry pendingState rfl rfl).2.2.2.2.1⟩

/-- Claim C8: the submission is a POST to the /api/scan-face endpoint
whose body carries the data-URI-encoded JPEG still plus the visitor info,
with the documented fallback `{ name: visitorName, company: "",
visiting: "", visitorType: "regular" }` when no visitor info was
supplied, and any response status other than "success" is handled as a
failure (no face id stored, error toast emitted). -/
theorem c8_post_request_shape (s : SessionState) (vi : Option VisitorInfo)
    (vn frame st fid : String) :
    (captureAndScanFace s vi vn frame (Outcome.respond st fid)).2.head? =
      some (Effect.httpRequest "POST" scanFaceUrl
        (buildScanBody vi vn (toDataURL "image/jpeg" frame))) ∧
    scanFaceUrl = "http://localhost:5000" ++ "/api/scan-face" ∧
    toDataURL "image/jpeg" frame = "data:image/jpeg;base64," ++ frame ∧
    (vi = none → (buildScanBody vi vn (toDataURL "image/jpeg" frame)).visitorInfo =
      { name := vn, company := "", visiting := "", visitorType := "regular" }) ∧
    (∀ v, vi = some v →
      (buildScanBody vi vn (toDataURL "image/jpeg" frame)).visitorInfo = v) ∧
    (st ≠ "success" →
      (captureAndScanFace s vi vn frame (Outcome.respond st fid)).1.scannedFaceId =
        s.scannedFaceId ∧
      Effect.toastError "Kunde inte spara ansikte och uppgifter." ∈
        (captureAndScanFace s vi vn frame (Outcome.respond st fid)).2) := by
  refine ⟨?_, by decide, rfl, ?_, ?_, ?_⟩
  case _ =>
    by_cases h : st = "success" <;> simp [captureAndScanFace, h]
  · intro h
    subst h
    rfl
  · intro v h
    subst h
    rfl
  · intro hne
    exact ⟨by simp [captureAndScanFace, captureEntry, hne],
           by simp [captureAndScanFace, hne]⟩

theorem c8_witness :
    (captureAndScanFace scanningState none "Alice" "IMG"
        (Outcome.respond "fail" "z")).2.head? =
      some (Effect.httpRequest "POST" scanFaceUrl
        (buildScanBody none "Alice" (toDataURL "image/jpeg" "IMG"))) ∧
    (buildScanBody none "Alice" (toDataURL "image/jpeg" "IMG")).visitorInfo =
      { name := "Alice", company := "", visiting := "", visitorType := "regular" } ∧
    (captureAndScanFace scanningState none "Alice" "IMG"
        (Outcome.respond "fail" "z")).1.scannedFaceId = scanningState.scannedFaceId :=
  ⟨(c8_post_request_shape scanningState none "Alice" "IMG" "fail" "z").1,
   (c8_post_request_shape scanningState none "Alice" "IMG" "fail" "z").2.2.2.1 rfl,
   ((c8_post_request_shape scanningState none "Alice" "IMG" "fail" "z").2.2.2.2.2
     (by decide)).1⟩

/-- Claim C9: the conjunct "a non-null stream only while Scanning with
permission granted" holds over all reachable states (`reachable_inv`),
but the release-before-destroy conjunct is false of the program: the
teardown cleanup is the mount render's stale closure over a null stream,
so the reachable state obtained by tearing down `grantedState` — reached
by checking consent, accepting it, and having the camera granted as
handle 7 — is destroyed while still holding the stream, with no
stopTracks effect ever emitted for it. -/
theorem c9_stream_survives_teardown :
    Reachable (unmountCleanup grantedState).1 ∧
    grantedState.currentStep = Step.scanning ∧
    grantedState.hasPermission = some true ∧
    (unmountCleanup grantedState).1.mounted = false ∧
    (unmountCleanup grantedState).1.stream = some 7 ∧
    (unmountCleanup grantedState).2 = [] := by
  refine ⟨Reachable.close grantedState ?_, by decide, by decide, by decide, by decide,
    by decide⟩
  exact Reachable.cameraResolved acceptedState (some 7)
    (Reachable.acceptConsent consentedState
      (Reachable.setConsent initState true Reachable.init rfl rfl) rfl rfl)
    rfl rfl

/-- Claim C10: `stopCamera` only ever touches the stream field: the step,
`isScanning`, `hasPermission`, `consentChecked` and `scannedFaceId` are
all unchanged by it, whether or not a stream was present. -/
theorem c10_stopCamera_only_touches_stream (s : SessionState) :
    (stopCamera s).1.currentStep = s.currentStep ∧
    (stopCamera s).1.isScanning = s.isScanning ∧
    (stopCamera s).1.hasPermission = s.hasPermission ∧
    (stopCamera s).1.consentChecked = s.consentChecked ∧
    (stopCamera s).1.scannedFaceId = s.scannedFaceId := by
  cases hs : s.stream <;> simp [stopCamera, hs]
